import Mathlib

/-!
# Verification of the voice-agent conversation-loop client (`app.js`)

A shallow embedding of the browser client in `src/app.js`: session-identity
resolution (`getOrCreateSessionId`), the capture/upload/playback loop
(`startRecording`, the `MediaRecorder` handlers, the stop-button handler),
and the auto-restart protocol (the `ended` listener with its 500 ms timer).

The script is single-threaded and event-driven, so it is modelled as a step
function on an explicit state record, driven by the events the browser can
deliver (button clicks, `getUserMedia` resolution or rejection,
`dataavailable`, `onstop`, fetch resolution or rejection, playback `ended`,
timer expiry).  Audio chunk payloads are modelled by their sizes
(`e.data.size` is the only attribute the code reads).
-/

set_option autoImplicit false

namespace VoiceAgent

/-- JavaScript truthiness of an optional string (`null`, `undefined` and the
empty string are falsy; every other string is truthy). -/
def truthyStr : Option String → Bool
  | none => false
  | some s => !(s == "")

/-- The part of `window.location` the script reads and writes: the value of
the `session_id` query parameter (`none` when the parameter is absent). -/
structure Location where
  sessionId : Option String
  deriving Repr, DecidableEq

/-- Result of running `getOrCreateSessionId`: the returned identifier, the
location afterwards, how many times `history.pushState` ran, and how many
page navigations/reloads occurred (`pushState` performs none). -/
structure ResolveResult where
  id : String
  loc : Location
  pushes : Nat
  reloads : Nat
  deriving Repr, DecidableEq

/-- `app.js` lines 19-29: read `session_id` from the URL parameters; if the
value is falsy (absent or empty), generate a fresh identifier (the
`crypto.randomUUID` result is passed in as `freshId`) and push a new URL
recording it.  `pushState` updates the location without navigating. -/
def getOrCreateSessionId (freshId : String) (loc : Location) : ResolveResult :=
  if truthyStr loc.sessionId then
    { id := loc.sessionId.getD "", loc := loc, pushes := 0, reloads := 0 }
  else
    { id := freshId, loc := { sessionId := some freshId }, pushes := 1, reloads := 0 }

/-- The fields of the parsed JSON body (`await res.json()`) that the handler
reads; a field absent from the body is `none`. -/
structure ServerData where
  gemini_text : Option String
  audio_url : Option String
  detail : Option String
  deriving Repr, DecidableEq

/-- A fetch response: the HTTP success flag together with the parsed body.
(`app.js` never reads the flag; it is carried to state that fact.) -/
structure HttpResponse where
  ok : Bool
  data : ServerData
  deriving Repr, DecidableEq

/-- One part of the multipart form body: `formData.append(name, blob,
filename)` with the blob's declared media type and payload (chunk sizes). -/
structure FormField where
  name : String
  filename : String
  mediaType : String
  payload : List Nat
  deriving Repr, DecidableEq

/-- An HTTP request as issued by `fetch` in the `onstop` handler. -/
structure Request where
  method : String
  url : String
  fields : List FormField
  deriving Repr, DecidableEq

/-- Origin part of the hard-coded backend URL (`app.js` line 70). -/
def endpointBase : String := "http://127.0.0.1:8000"

/-- The one request the `onstop` handler builds (`app.js` lines 59-73):
`POST` to `/agent/chat/` followed by the session id, with a single binary
field named `file`, filename `recording.webm`, blob type `audio/webm`. -/
def mkTurnRequest (sid : String) (chunks : List Nat) : Request :=
  { method := "POST"
    url := endpointBase ++ "/agent/chat/" ++ sid
    fields := [{ name := "file", filename := "recording.webm"
                 mediaType := "audio/webm", payload := chunks }] }

/-- `app.js` line 103. -/
def msgRecording : String := "🎤 Recording..."

/-- `app.js` line 65. -/
def msgProcessing : String := "Processing your request..."

/-- `app.js` line 85. -/
def msgReady : String := "✅ Response ready! I am listening again..."

/-- `app.js` line 110. -/
def msgMicDenied : String := "❌ Mic access denied. Please allow microphone access."

/-- `app.js` line 88: the generic fallback when the body carries no truthy
`detail`. -/
def msgIncomplete : String := "Incomplete response from server. Missing text or audio URL."

/-- `app.js` line 93: the text prepended to the error message. -/
def msgErrHead : String := "❌ Error processing: "

/-- `app.js` line 105. -/
def msgNoResponse : String := "No response yet."

/-- `app.js` line 138: the `setTimeout` delay of the auto-restart timer. -/
def graceDelayMs : Nat := 500

/-- The mutable state of the page: the DOM elements the script writes, the
script's module-level variables, and the outstanding asynchronous work
(pending `getUserMedia` promises, recorders whose `onstop` has been queued,
in-flight fetches, scheduled auto-restart timers).  `requestsSent` logs every
request handed to `fetch`, `activeRecorders` counts every `MediaRecorder`
currently capturing (including ones orphaned by reassigning the
`mediaRecorder` variable), and `recording` says whether the recorder the
`mediaRecorder` variable currently points at is in state `"recording"`. -/
structure St where
  session_id : String
  recordBtnDisabled : Bool
  stopBtnDisabled : Bool
  statusText : String
  spinnerVisible : Bool
  geminiText : String
  audioSrc : String
  audioVisible : Bool
  audioPlaying : Bool
  audioChunks : List Nat
  pendingGetUserMedia : Nat
  recording : Bool
  activeRecorders : Nat
  pendingOnStop : Nat
  pendingFetch : Nat
  pendingGraceTimers : List Nat
  requestsSent : List Request
  deriving Repr, DecidableEq

/-- The events the browser can deliver to the script.  A record-button click
is only deliverable while the button is enabled (a disabled button fires no
`click`), and the asynchronous completions are only deliverable while the
corresponding operation is outstanding. -/
inductive Event where
  | clickRecord
  | clickStop
  | mediaGranted
  | mediaDenied
  | dataAvailable (size : Nat)
  | onStopFires
  | responseArrived (r : HttpResponse)
  | fetchFailed (msg : String)
  | playbackEnded
  | graceTimerFired
  deriving Repr, DecidableEq

/-- Calling `startRecording()` runs up to `await getUserMedia` and suspends:
the only immediate effect is one more outstanding device request
(`app.js` line 43 is the first statement of the function). -/
def startRequest (s : St) : St :=
  { s with pendingGetUserMedia := s.pendingGetUserMedia + 1 }

/-- One step of the event loop: `none` when the event is not deliverable in
state `s`, otherwise the state after running the corresponding handler.

* `clickRecord` — `recordBtn.onclick = startRecording` (line 117); suspends
  at `await getUserMedia`.
* `clickStop` — lines 120-127: stop the current recorder when it is
  recording (queueing its `onstop` handler), re-enable record, disable stop.
* `mediaGranted` — one pending `getUserMedia` resolves; the rest of
  `startRecording` runs (lines 45-107): a fresh recorder is created, made
  current and started, the shared chunk buffer is cleared, buttons and texts
  are set, the previous reply text/audio are cleared.
* `mediaDenied` — `getUserMedia` rejects; the `catch` at lines 108-112 runs:
  only the status text changes.
* `dataAvailable` — lines 50-54: a chunk arrives from some recorder that is
  capturing or flushing; it is appended only when its size is positive.
* `onStopFires` — a queued `onstop` handler runs (lines 57-73): build the
  blob from the shared chunk buffer, set processing status, show the
  spinner, hand exactly one request to `fetch`.
* `responseArrived` — `fetch` and `res.json()` resolve (lines 76-89): hide
  the spinner; when both `gemini_text` and `audio_url` are truthy take the
  success branch (publish text, set and show the audio source, play),
  otherwise throw `detail || fallback`, caught at lines 90-95.  `res.ok` is
  never consulted.
* `fetchFailed` — `fetch` rejects or the body is not JSON; the `catch` at
  lines 90-95 runs with the thrown message.
* `playbackEnded` — the `ended` listener (lines 131-139) schedules one
  auto-restart timer with delay `graceDelayMs`.
* `graceTimerFired` — a scheduled timer expires: call `startRecording()`
  unless the record button is disabled (line 135). -/
def step (s : St) (e : Event) : Option St :=
  match e with
  | .clickRecord =>
      if s.recordBtnDisabled then none
      else some (startRequest s)
  | .clickStop =>
      if s.stopBtnDisabled then none
      else if s.recording then
        some { s with recording := false
                      activeRecorders := s.activeRecorders - 1
                      pendingOnStop := s.pendingOnStop + 1
                      recordBtnDisabled := false
                      stopBtnDisabled := true }
      else some { s with recordBtnDisabled := false, stopBtnDisabled := true }
  | .mediaGranted =>
      if s.pendingGetUserMedia = 0 then none
      else some { s with
        pendingGetUserMedia := s.pendingGetUserMedia - 1
        recording := true
        activeRecorders := s.activeRecorders + 1
        audioChunks := []
        recordBtnDisabled := true
        stopBtnDisabled := false
        statusText := msgRecording
        geminiText := msgNoResponse
        audioVisible := false
        audioSrc := "" }
  | .mediaDenied =>
      if s.pendingGetUserMedia = 0 then none
      else some { s with
        pendingGetUserMedia := s.pendingGetUserMedia - 1
        statusText := msgMicDenied }
  | .dataAvailable n =>
      if s.activeRecorders = 0 ∧ s.pendingOnStop = 0 then none
      else if 0 < n then some { s with audioChunks := s.audioChunks ++ [n] }
      else some s
  | .onStopFires =>
      if s.pendingOnStop = 0 then none
      else some { s with
        pendingOnStop := s.pendingOnStop - 1
        statusText := msgProcessing
        spinnerVisible := true
        pendingFetch := s.pendingFetch + 1
        requestsSent := s.requestsSent ++ [mkTurnRequest s.session_id s.audioChunks] }
  | .responseArrived r =>
      if s.pendingFetch = 0 then none
      else if truthyStr r.data.gemini_text && truthyStr r.data.audio_url then
        some { s with
          pendingFetch := s.pendingFetch - 1
          spinnerVisible := false
          geminiText := r.data.gemini_text.getD ""
          audioSrc := r.data.audio_url.getD ""
          audioVisible := true
          audioPlaying := true
          statusText := msgReady }
      else
        some { s with
          pendingFetch := s.pendingFetch - 1
          spinnerVisible := false
          statusText := msgErrHead ++
            (if truthyStr r.data.detail then r.data.detail.getD "" else msgIncomplete) }
  | .fetchFailed m =>
      if s.pendingFetch = 0 then none
      else some { s with
        pendingFetch := s.pendingFetch - 1
        spinnerVisible := false
        statusText := msgErrHead ++ m }
  | .playbackEnded =>
      if s.audioPlaying then
        some { s with
          audioPlaying := false
          pendingGraceTimers := s.pendingGraceTimers ++ [graceDelayMs] }
      else none
  | .graceTimerFired =>
      match s.pendingGraceTimers with
      | [] => none
      | _ :: rest =>
          if s.recordBtnDisabled then some { s with pendingGraceTimers := rest }
          else some { s with pendingGraceTimers := rest
                             pendingGetUserMedia := s.pendingGetUserMedia + 1 }

/-- Run a sequence of events from a state; `none` when some event in the
sequence is not deliverable. -/
def run (s : St) : List Event → Option St
  | [] => some s
  | e :: tr =>
      match step s e with
      | none => none
      | some s1 => run s1 tr

/-- The page state right after the script loads with resolved session id
`sid`: empty chunk buffer, nothing recording or outstanding (`app.js` lines
2-4 and 32).  Modelled from the spec: the initial enabled/disabled state of
the two buttons and the initial visibility of the playback surface are set
in the page markup, which is not part of the captured source; per the spec
the loop starts in the capture-ready `Idle` state (record enabled, stop
disabled, no playback showing). -/
def initState (sid : String) : St :=
  { session_id := sid
    recordBtnDisabled := false
    stopBtnDisabled := true
    statusText := ""
    spinnerVisible := false
    geminiText := ""
    audioSrc := ""
    audioVisible := false
    audioPlaying := false
    audioChunks := []
    pendingGetUserMedia := 0
    recording := false
    activeRecorders := 0
    pendingOnStop := 0
    pendingFetch := 0
    pendingGraceTimers := []
    requestsSent := [] }

/-! ## Concrete states

Sample states reached by running the loop on concrete event sequences; they
exercise the theorems below on explicit inputs. -/

/-- Fallback state for `Option.getD`; never actually used. -/
def exDefault : St := initState "S"

/-- After one record-button click: one pending device request. -/
def exStart : St := (step exDefault Event.clickRecord).getD exDefault

/-- After the device request is granted: recording. -/
def exRec : St := (step exStart Event.mediaGranted).getD exDefault

/-- After the stop button: recorder stopped, `onstop` queued. -/
def exStop : St := (step exRec Event.clickStop).getD exDefault

/-- After the `onstop` handler ran: one request sent, fetch outstanding. -/
def exSubmit : St := (step exStop Event.onStopFires).getD exDefault

/-- A well-formed reply body. -/
def dGood : ServerData := { gemini_text := some "hi", audio_url := some "u1", detail := none }

/-- A complete body as carried by a non-success HTTP response. -/
def dErr : ServerData := { gemini_text := some "t", audio_url := some "u", detail := some "boom" }

/-- A body missing `gemini_text`, with a server detail message. -/
def dBad : ServerData := { gemini_text := none, audio_url := some "u1", detail := some "quota exceeded" }

/-- A body whose `gemini_text` is present but empty. -/
def dEmpty : ServerData := { gemini_text := some "", audio_url := some "u1", detail := none }

/-- One full successful turn, ending with playback completion. -/
def trC1 : List Event :=
  [Event.clickRecord, Event.mediaGranted, Event.clickStop, Event.onStopFires,
   Event.responseArrived ⟨true, dGood⟩, Event.playbackEnded]

/-- After a full turn and playback completion: a grace timer is pending. -/
def exEnded : St := (run (initState "S") trC1).getD exDefault

/-- After the grace timer expires: capture re-entered. -/
def exFired : St := (step exEnded Event.graceTimerFired).getD exDefault

/-- After a successful reply arrives in `exSubmit`. -/
def exReply : St := (step exSubmit (Event.responseArrived ⟨true, dGood⟩)).getD exDefault

/-- After a reply missing `gemini_text` arrives in `exSubmit`. -/
def exFail : St := (step exSubmit (Event.responseArrived ⟨true, dBad⟩)).getD exDefault

/-- After a reply with an empty `gemini_text` arrives in `exSubmit`. -/
def exEmptyFail : St := (step exSubmit (Event.responseArrived ⟨true, dEmpty⟩)).getD exDefault

/-- After a zero-size chunk is delivered in `exStop`. -/
def exChunk : St := (step exStop (Event.dataAvailable 0)).getD exDefault

/-- After the device request of `exStart` is refused. -/
def exDenied : St := (step exStart Event.mediaDenied).getD exDefault

/-! ## General lemmas about the event loop -/

/-- No handler ever writes the `session_id` variable after load. -/
theorem step_session_id {s t : St} {e : Event} (h : step s e = some t) :
    t.session_id = s.session_id := by
  cases e <;> simp only [step, startRequest] at h <;> (repeat' split at h) <;>
    (try cases h) <;> rfl

/-- The session identifier is constant along every run. -/
theorem run_session_id {s t : St} {tr : List Event} (h : run s tr = some t) :
    t.session_id = s.session_id := by
  induction tr generalizing s with
  | nil => simp [run] at h; rw [h]
  | cons e tr ih =>
      simp only [run] at h
      cases he : step s e with
      | none => rw [he] at h; cases h
      | some s1 => rw [he] at h; rw [ih h, step_session_id he]

/-- Each step changes the number of scheduled auto-restart timers by exactly
the number of `playbackEnded` events handled minus the number of timer
expiries handled: only the `ended` listener schedules a timer and only an
expiry consumes one. -/
theorem step_grace_len {s t : St} {e : Event} (h : step s e = some t) :
    t.pendingGraceTimers.length + (if e = Event.graceTimerFired then 1 else 0)
      = s.pendingGraceTimers.length + (if e = Event.playbackEnded then 1 else 0) := by
  cases e <;> simp only [step, startRequest] at h <;> (repeat' split at h) <;>
    (try cases h) <;> simp_all

/-- Timer accounting along a run: pending timers grow with playback
completions and shrink with timer expiries, and with nothing else. -/
theorem run_grace_count {s t : St} {tr : List Event} (h : run s tr = some t) :
    t.pendingGraceTimers.length + tr.count Event.graceTimerFired
      = s.pendingGraceTimers.length + tr.count Event.playbackEnded := by
  induction tr generalizing s with
  | nil => simp [run] at h; subst h; simp
  | cons e tr ih =>
      simp only [run] at h
      cases he : step s e with
      | none => rw [he] at h; cases h
      | some s1 =>
          rw [he] at h
          have h1 := ih h
          have h2 := step_grace_len he
          simp only [List.count_cons] at *
          by_cases hg : e = Event.graceTimerFired <;>
            by_cases hp : e = Event.playbackEnded <;>
            simp_all <;> omega

/-- Every scheduled auto-restart timer carries the fixed grace delay. -/
theorem step_grace_all {s t : St} {e : Event} (h : step s e = some t)
    (hi : ∀ d ∈ s.pendingGraceTimers, d = graceDelayMs) :
    ∀ d ∈ t.pendingGraceTimers, d = graceDelayMs := by
  cases e <;> simp only [step, startRequest] at h <;> (repeat' split at h) <;>
    (try cases h) <;>
    first
    | exact hi
    | (intro d hd
       simp only [List.mem_append, List.mem_singleton] at hd
       rcases hd with hd | hd
       · exact hi d hd
       · exact hd)
    | (intro d hd
       apply hi d
       simp_all)

/-- Along a run, every scheduled auto-restart timer carries the fixed grace
delay. -/
theorem run_grace_all {s t : St} {tr : List Event} (h : run s tr = some t)
    (hi : ∀ d ∈ s.pendingGraceTimers, d = graceDelayMs) :
    ∀ d ∈ t.pendingGraceTimers, d = graceDelayMs := by
  induction tr generalizing s with
  | nil => simp [run] at h; rw [← h]; exact hi
  | cons e tr ih =>
      simp only [run] at h
      cases he : step s e with
      | none => rw [he] at h; cases h
      | some s1 => rw [he] at h; exact ih h (step_grace_all he hi)

/-- While the recorder the `mediaRecorder` variable points at is recording,
the record button is disabled: `startRecording` disables it right after
starting the recorder, and only the stop handler re-enables it, stopping the
current recorder at the same time. -/
theorem step_recording_disabled {s t : St} {e : Event} (h : step s e = some t)
    (hi : s.recording = true → s.recordBtnDisabled = true) :
    t.recording = true → t.recordBtnDisabled = true := by
  cases e <;> simp only [step, startRequest] at h <;> (repeat' split at h) <;>
    (try cases h) <;> simp_all

/-- The record button is disabled whenever the current recorder is recording,
in every state reachable by a run that starts from a state satisfying the
same property. -/
theorem run_recording_disabled {s t : St} {tr : List Event} (h : run s tr = some t)
    (hi : s.recording = true → s.recordBtnDisabled = true) :
    t.recording = true → t.recordBtnDisabled = true := by
  induction tr generalizing s with
  | nil => simp [run] at h; rw [← h]; exact hi
  | cons e tr ih =>
      simp only [run] at h
      cases he : step s e with
      | none => rw [he] at h; cases h
      | some s1 => rw [he] at h; exact ih h (step_recording_disabled he hi)

/-! ## The claims -/

/-- C1: for every playback that finishes naturally, auto-restart re-enters
capture only after the playback-completion event plus the fixed 500 ms grace
delay, does not re-enter capture when the record button is disabled (capture
armed/in progress) at the moment the delay expires, and never fires without
a preceding playback completion: whenever the grace timer fires after trace
`tr` from the initial state, strictly more playback completions than earlier
timer firings occurred in `tr`, the expiring timer was scheduled with the
500 ms delay, and the handler re-enters capture exactly when the record
button is enabled, leaving the state otherwise unchanged. -/
theorem C1_auto_restart_protocol (sid : String) (tr : List Event) (s t : St)
    (h : run (initState sid) tr = some s)
    (hf : step s Event.graceTimerFired = some t) :
    tr.count Event.graceTimerFired < tr.count Event.playbackEnded
    ∧ s.pendingGraceTimers.head? = some graceDelayMs
    ∧ graceDelayMs = 500
    ∧ t = (if s.recordBtnDisabled
           then { s with pendingGraceTimers := s.pendingGraceTimers.tail }
           else { s with pendingGraceTimers := s.pendingGraceTimers.tail
                         pendingGetUserMedia := s.pendingGetUserMedia + 1 }) := by
  have hcount := run_grace_count h
  have hall := run_grace_all h (by simp [initState])
  simp only [initState] at hcount
  cases hq : s.pendingGraceTimers with
  | nil => rw [show step s Event.graceTimerFired = none by simp [step, hq]] at hf; cases hf
  | cons d rest =>
      have hd : d = graceDelayMs := hall d (by rw [hq]; exact List.mem_cons_self d rest)
      refine ⟨?_, ?_, rfl, ?_⟩
      · rw [hq] at hcount; simp at hcount; omega
      · simp [hd]
      · have hstep : step s Event.graceTimerFired
            = (if s.recordBtnDisabled
               then some { s with pendingGraceTimers := rest }
               else some { s with pendingGraceTimers := rest
                                  pendingGetUserMedia := s.pendingGetUserMedia + 1 }) := by
          simp only [step, hq]
        rw [hstep] at hf
        cases hb : s.recordBtnDisabled <;> simp [hb] at hf ⊢ <;> exact hf.symm

theorem C1_witness :
    trC1.count Event.graceTimerFired < trC1.count Event.playbackEnded
    ∧ exEnded.pendingGraceTimers.head? = some graceDelayMs
    ∧ graceDelayMs = 500
    ∧ exFired = (if exEnded.recordBtnDisabled
           then { exEnded with pendingGraceTimers := exEnded.pendingGraceTimers.tail }
           else { exEnded with pendingGraceTimers := exEnded.pendingGraceTimers.tail
                               pendingGetUserMedia := exEnded.pendingGetUserMedia + 1 }) :=
  C1_auto_restart_protocol "S" trC1 exEnded exFired (by rfl) (by rfl)

/-- C2: evaluating the client at the failing input.  Two record-button
clicks are delivered while the first `getUserMedia` request is still pending
(the button is only disabled later, after the device is granted), then both
device requests resolve: each resolution creates and starts its own
`MediaRecorder`, leaving two capture sessions active at the same instant.
This contradicts the claim that at most one capture session is active and
that a start issued during capture is a no-op. -/
theorem C2_two_concurrent_captures :
    (run (initState "S")
        [Event.clickRecord, Event.clickRecord, Event.mediaGranted, Event.mediaGranted]).map
      St.activeRecorders = some 2 := by rfl

/-- C3 (counterexample): a non-success HTTP response (`ok = false`) whose
body nevertheless parses with truthy `gemini_text` and `audio_url` takes the
success path — reply published and playback started — although the claim
requires the submission to fail with a `RequestError` whenever the HTTP
response is non-success. -/
theorem C3_counterexample :
    (run (initState "S")
        [Event.clickRecord, Event.mediaGranted, Event.clickStop, Event.onStopFires,
         Event.responseArrived ⟨false, dErr⟩]).map
      (fun s => (s.statusText, s.audioPlaying, s.geminiText)) = some (msgReady, true, "t") := by
  rfl

/-- C3 (amended): the turn submission fails exactly when the parsed body
lacks a truthy `gemini_text` or a truthy `audio_url`; the HTTP success flag
is never consulted; and in every failure the surfaced status message is the
error prefix followed by the server `detail` when that is truthy, else by
the generic incomplete-response fallback. -/
theorem C3_failure_condition (s t : St) (ok : Bool) (d : ServerData)
    (h : step s (Event.responseArrived ⟨ok, d⟩) = some t) :
    step s (Event.responseArrived ⟨true, d⟩) = step s (Event.responseArrived ⟨false, d⟩)
    ∧ t = (if truthyStr d.gemini_text && truthyStr d.audio_url
           then { s with
             pendingFetch := s.pendingFetch - 1
             spinnerVisible := false
             geminiText := d.gemini_text.getD ""
             audioSrc := d.audio_url.getD ""
             audioVisible := true
             audioPlaying := true
             statusText := msgReady }
           else { s with
             pendingFetch := s.pendingFetch - 1
             spinnerVisible := false
             statusText := msgErrHead ++
               (if truthyStr d.detail then d.detail.getD "" else msgIncomplete) }) := by
  constructor
  · rfl
  · simp only [step] at h
    split at h
    · cases h
    · by_cases hc : (truthyStr d.gemini_text && truthyStr d.audio_url) = true
      · rw [if_pos hc] at h ⊢
        cases h; rfl
      · rw [if_neg hc] at h ⊢
        cases h; rfl

theorem C3_witness :
    step exSubmit (Event.responseArrived ⟨true, dBad⟩)
      = step exSubmit (Event.responseArrived ⟨false, dBad⟩)
    ∧ exFail.statusText = msgErrHead ++ "quota exceeded" := by
  have h := C3_failure_condition exSubmit exFail true dBad (by rfl)
  exact ⟨h.1, by rw [h.2]; rfl⟩

/-- C4: for every response whose body carries non-empty `gemini_text` and
non-empty `audio_url`, the handler takes the success transition: the
displayed reply text equals the body's `gemini_text`, the playback source is
set to the body's `audio_url`, the playback surface is shown and playback is
started, with the ready status published and the spinner hidden. -/
theorem C4_success_transition (s t : St) (ok : Bool) (g u : String) (det : Option String)
    (h : step s (Event.responseArrived ⟨ok, ⟨some g, some u, det⟩⟩) = some t)
    (hg : g ≠ "") (hu : u ≠ "") :
    t.geminiText = g ∧ t.audioSrc = u ∧ t.audioVisible = true ∧ t.audioPlaying = true
    ∧ t.statusText = msgReady ∧ t.spinnerVisible = false := by
  simp only [step] at h
  split at h
  · cases h
  · rw [if_pos (by simp [truthyStr, hg, hu])] at h
    cases h
    simp_all

theorem C4_witness :
    exReply.geminiText = "hi" ∧ exReply.audioSrc = "u1" ∧ exReply.audioVisible = true
    ∧ exReply.audioPlaying = true ∧ exReply.statusText = msgReady
    ∧ exReply.spinnerVisible = false :=
  C4_success_transition exSubmit exReply true "hi" "u1" none (by rfl) (by decide) (by decide)

/-- C5: when the device request is refused, the `catch` block of
`startRecording` runs: no request is handed to `fetch` and no remote call
becomes outstanding, the denial message is published on the status surface,
the button states (hence capture-readiness) are untouched, no recorder is
started, no auto-restart timer is scheduled and no new device request is
issued — the one pending request is simply consumed, so a new capture can
only come from a later explicit start. -/
theorem C5_denied_no_submit (s t : St)
    (h : step s Event.mediaDenied = some t) :
    t.requestsSent = s.requestsSent
    ∧ t.pendingFetch = s.pendingFetch
    ∧ t.statusText = msgMicDenied
    ∧ t.recordBtnDisabled = s.recordBtnDisabled
    ∧ t.stopBtnDisabled = s.stopBtnDisabled
    ∧ t.recording = s.recording
    ∧ t.activeRecorders = s.activeRecorders
    ∧ t.pendingOnStop = s.pendingOnStop
    ∧ t.pendingGraceTimers = s.pendingGraceTimers
    ∧ t.pendingGetUserMedia = s.pendingGetUserMedia - 1 := by
  simp only [step] at h
  split at h
  · cases h
  · cases h; simp_all

theorem C5_witness :
    exDenied.requestsSent = exStart.requestsSent
    ∧ exDenied.pendingFetch = exStart.pendingFetch
    ∧ exDenied.statusText = msgMicDenied
    ∧ exDenied.recordBtnDisabled = exStart.recordBtnDisabled
    ∧ exDenied.stopBtnDisabled = exStart.stopBtnDisabled
    ∧ exDenied.recording = exStart.recording
    ∧ exDenied.activeRecorders = exStart.activeRecorders
    ∧ exDenied.pendingOnStop = exStart.pendingOnStop
    ∧ exDenied.pendingGraceTimers = exStart.pendingGraceTimers
    ∧ exDenied.pendingGetUserMedia = exStart.pendingGetUserMedia - 1 :=
  C5_denied_no_submit exStart exDenied (by rfl)

/-- C6: session-identity resolution is idempotent.  For a location already
containing an identifier (a truthy `session_id` parameter), resolving twice
returns that identifier both times, never rewrites the location and never
pushes history.  For a location with no identifier, resolving returns the
freshly generated identifier and pushes the updated location exactly once;
resolving again afterwards returns the same identifier with no further push.
`pushState` never navigates, so `reloads` is 0 throughout. -/
theorem C6_resolver_idempotent (a fresh fresh2 : String) (loc : Location)
    (ha : loc.sessionId = some a) (hne : a ≠ "") (hfresh : fresh ≠ "") :
    getOrCreateSessionId fresh loc = { id := a, loc := loc, pushes := 0, reloads := 0 }
    ∧ getOrCreateSessionId fresh2 (getOrCreateSessionId fresh loc).loc
        = { id := a, loc := loc, pushes := 0, reloads := 0 }
    ∧ getOrCreateSessionId fresh { sessionId := none }
        = { id := fresh, loc := { sessionId := some fresh }, pushes := 1, reloads := 0 }
    ∧ getOrCreateSessionId fresh2 (getOrCreateSessionId fresh { sessionId := none }).loc
        = { id := fresh, loc := { sessionId := some fresh }, pushes := 0, reloads := 0 } := by
  have h1 : getOrCreateSessionId fresh loc
      = { id := a, loc := loc, pushes := 0, reloads := 0 } := by
    simp [getOrCreateSessionId, truthyStr, ha, hne]
  have h3 : getOrCreateSessionId fresh { sessionId := none }
      = { id := fresh, loc := { sessionId := some fresh }, pushes := 1, reloads := 0 } := by
    simp [getOrCreateSessionId, truthyStr]
  refine ⟨h1, ?_, h3, ?_⟩
  · rw [h1]
    simp [getOrCreateSessionId, truthyStr, ha, hne]
  · rw [h3]
    simp [getOrCreateSessionId, truthyStr, hfresh]

theorem C6_witness :
    getOrCreateSessionId "G1" { sessionId := some "A" }
        = { id := "A", loc := { sessionId := some "A" }, pushes := 0, reloads := 0 }
    ∧ getOrCreateSessionId "G2" (getOrCreateSessionId "G1" { sessionId := some "A" }).loc
        = { id := "A", loc := { sessionId := some "A" }, pushes := 0, reloads := 0 }
    ∧ getOrCreateSessionId "G1" { sessionId := none }
        = { id := "G1", loc := { sessionId := some "G1" }, pushes := 1, reloads := 0 }
    ∧ getOrCreateSessionId "G2" (getOrCreateSessionId "G1" { sessionId := none }).loc
        = { id := "G1", loc := { sessionId := some "G1" }, pushes := 0, reloads := 0 } :=
  C6_resolver_idempotent "A" "G1" "G2" { sessionId := some "A" }
    (by rfl) (by decide) (by decide)

/-- C7: a chunk of size zero is discarded and any chunk of positive size is
appended to the buffer; and when the `onstop` handler runs it forwards the
buffered recording to the remote call unconditionally — in particular a
buffer with zero chunks is still submitted (one more request sent, one more
fetch outstanding), an empty recording not being an error at this layer. -/
theorem C7_chunk_policy (s t u : St) (n : Nat)
    (hd : step s (Event.dataAvailable n) = some t)
    (hs : step s Event.onStopFires = some u) :
    t.audioChunks = (if 0 < n then s.audioChunks ++ [n] else s.audioChunks)
    ∧ u.requestsSent = s.requestsSent ++ [mkTurnRequest s.session_id s.audioChunks]
    ∧ u.pendingFetch = s.pendingFetch + 1 := by
  constructor
  · simp only [step] at hd
    split at hd
    · cases hd
    · split at hd <;> (cases hd; simp_all)
  · simp only [step] at hs
    split at hs
    · cases hs
    · cases hs; simp_all

theorem C7_witness :
    exChunk.audioChunks = (if 0 < 0 then exStop.audioChunks ++ [0] else exStop.audioChunks)
    ∧ exSubmit.requestsSent = exStop.requestsSent ++ [mkTurnRequest exStop.session_id exStop.audioChunks]
    ∧ exSubmit.pendingFetch = exStop.pendingFetch + 1 :=
  C7_chunk_policy exStop exChunk exSubmit 0 (by rfl) (by rfl)

/-- C8: whenever the `onstop` handler runs in any state reachable from page
load with resolved identifier `sid`, it hands exactly one request to `fetch`
(the request log grows by one element), and that request is a `POST` to the
path `/agent/chat/` followed by the resolved session identifier on the
hard-coded origin, whose multipart body has exactly one binary field named
`file` with filename `recording.webm` and media type `audio/webm`. -/
theorem C8_one_post_per_submission (sid : String) (tr : List Event) (s u : St)
    (h : run (initState sid) tr = some s)
    (hs : step s Event.onStopFires = some u) :
    u.requestsSent = s.requestsSent ++ [mkTurnRequest sid s.audioChunks]
    ∧ mkTurnRequest sid s.audioChunks
        = { method := "POST"
            url := "http://127.0.0.1:8000" ++ ("/agent/chat/" ++ sid)
            fields := [{ name := "file", filename := "recording.webm"
                         mediaType := "audio/webm", payload := s.audioChunks }] } := by
  have hsid : s.session_id = sid := by
    rw [run_session_id h]; rfl
  constructor
  · simp only [step] at hs
    split at hs
    · cases hs
    · cases hs; simp_all
  · rw [← String.append_assoc]
    rfl

theorem C8_witness :
    exSubmit.requestsSent = exStop.requestsSent ++ [mkTurnRequest "S" exStop.audioChunks]
    ∧ mkTurnRequest "S" exStop.audioChunks
        = { method := "POST"
            url := "http://127.0.0.1:8000" ++ ("/agent/chat/" ++ "S")
            fields := [{ name := "file", filename := "recording.webm"
                         mediaType := "audio/webm", payload := exStop.audioChunks }] } :=
  C8_one_post_per_submission "S" [Event.clickRecord, Event.mediaGranted, Event.clickStop]
    exStop exSubmit (by rfl) (by rfl)

/-- C9: a body whose `gemini_text` or `audio_url` is present but equal to
the empty string is treated exactly like a missing field: the truthiness
test fails, the handler takes the failure path with the detail-or-fallback
message, and the displayed reply text, playback source, playback visibility
and playing flag keep their previous values — the success path, which alone
starts playback, is never taken for such a body. -/
theorem C9_empty_string_is_missing (s t : St) (ok : Bool) (d : ServerData)
    (h : step s (Event.responseArrived ⟨ok, d⟩) = some t)
    (he : d.gemini_text = some "" ∨ d.audio_url = some "") :
    (truthyStr d.gemini_text && truthyStr d.audio_url) = false
    ∧ t.statusText = msgErrHead ++ (if truthyStr d.detail then d.detail.getD "" else msgIncomplete)
    ∧ t.geminiText = s.geminiText
    ∧ t.audioSrc = s.audioSrc
    ∧ t.audioVisible = s.audioVisible
    ∧ t.audioPlaying = s.audioPlaying := by
  have hc : (truthyStr d.gemini_text && truthyStr d.audio_url) = false := by
    rcases he with he | he <;> rw [he] <;> simp [truthyStr]
  refine ⟨hc, ?_⟩
  simp only [step] at h
  split at h
  · cases h
  · rw [if_neg (by simp [hc])] at h
    cases h
    simp_all

theorem C9_witness :
    (truthyStr dEmpty.gemini_text && truthyStr dEmpty.audio_url) = false
    ∧ exEmptyFail.statusText = msgErrHead ++
        (if truthyStr dEmpty.detail then dEmpty.detail.getD "" else msgIncomplete)
    ∧ exEmptyFail.geminiText = exSubmit.geminiText
    ∧ exEmptyFail.audioSrc = exSubmit.audioSrc
    ∧ exEmptyFail.audioVisible = exSubmit.audioVisible
    ∧ exEmptyFail.audioPlaying = exSubmit.audioPlaying :=
  C9_empty_string_is_missing exSubmit exEmptyFail true dEmpty (by rfl) (Or.inl (by rfl))

/-- C10: the denial path mutates only the status text.  When the device
request is refused, the chunk buffer, both button-enabled states, the
displayed reply text, the playback source and its visibility, the spinner
and the playing flag all keep the values they had before the start request:
the rejection happens at the `await` on the first line of `startRecording`,
before any of those mutations. -/
theorem C10_denial_touches_only_status (s t : St)
    (h : step s Event.mediaDenied = some t) :
    t.audioChunks = s.audioChunks
    ∧ t.recordBtnDisabled = s.recordBtnDisabled
    ∧ t.stopBtnDisabled = s.stopBtnDisabled
    ∧ t.geminiText = s.geminiText
    ∧ t.audioSrc = s.audioSrc
    ∧ t.audioVisible = s.audioVisible
    ∧ t.spinnerVisible = s.spinnerVisible
    ∧ t.audioPlaying = s.audioPlaying
    ∧ t.statusText = msgMicDenied := by
  simp only [step] at h
  split at h
  · cases h
  · cases h; simp_all

theorem C10_witness :
    exDenied.audioChunks = exStart.audioChunks
    ∧ exDenied.recordBtnDisabled = exStart.recordBtnDisabled
    ∧ exDenied.stopBtnDisabled = exStart.stopBtnDisabled
    ∧ exDenied.geminiText = exStart.geminiText
    ∧ exDenied.audioSrc = exStart.audioSrc
    ∧ exDenied.audioVisible = exStart.audioVisible
    ∧ exDenied.spinnerVisible = exStart.spinnerVisible
    ∧ exDenied.audioPlaying = exStart.audioPlaying
    ∧ exDenied.statusText = msgMicDenied :=
  C10_denial_touches_only_status exStart exDenied (by rfl)

end VoiceAgent
